import Mathlib

/-!
# Verification of the federated token exchange pipeline (gcputil)

A shallow embedding of the token-exchange code of the repository
(`gcputil/credentials.go`, both the token-source half and the
exchange-client half) together with theorems settling the spec claims.

Modelling conventions:
* Go `time.Time` values are modelled as `Int` (seconds); the Go zero
  time is `0`, so `Time.IsZero` becomes `t = 0`.
* Go standard-library externals that the repository merely calls are
  oracle fields of `NetEnv`: the HTTP transport (`client.Do`), the
  JSON *syntax* parser used by `encoding/json` (struct-field decoding
  is modelled concretely below), the RFC3339 parser `time.Parse`, and
  the clock `time.Now()`.
* Every network-performing function returns, besides its Go result,
  the list of HTTP requests it issued, so that "no network call" and
  "the IAM step is never reached" are statable.
* Go errors are strings built with `fmt.Errorf`; we model them with an
  inductive carrying the data each message interpolates, one
  constructor per distinct error site.
-/

/-- An outbound HTTP request as built by the Go code (`http.NewRequest`
plus the headers the code sets, in insertion order). -/
structure HttpRequest where
  method : String
  url : String
  headers : List (String × String)
  body : String
  deriving DecidableEq, Repr

/-- The parts of an HTTP response the Go code reads: `resp.StatusCode`
and the bytes of `resp.Body`. -/
structure HttpResponse where
  statusCode : Int
  body : String
  deriving DecidableEq, Repr

/-- A JSON value, used to model `encoding/json` unmarshalling: the
syntax layer (bytes to `Json`) is an oracle, the struct-field layer
(`Json` to the Go structs) is defined concretely below. -/
inductive Json where
  | null : Json
  | bool (b : Bool) : Json
  | num (n : Int) : Json
  | str (s : String) : Json
  | arr (xs : List Json) : Json
  | obj (fields : List (String × Json)) : Json

/-- Errors produced by the embedded code, one constructor per
`fmt.Errorf`/`errors.New` site of the two Go files, carrying the data
the corresponding message interpolates. -/
inductive GoError where
  /-- Models `errTokenRequestNil`, that is `errors.New("expected token request fields; got nil")`. -/
  | nilRequest : GoError
  /-- Models `"sts/google: invalid response from Secure Token Server: %v"`. -/
  | stsTransport (cause : String) : GoError
  /-- Models `"iamCredentials/google: invalid response from IAM Credentials Server: %v"`. -/
  | iamTransport (cause : String) : GoError
  /-- Models `"sts/google: status code %d: %s"`. -/
  | stsExchange (status : Int) (body : String) : GoError
  /-- Models `"iamCredentials/google: status code %d: %s"`. -/
  | iamExchange (status : Int) (body : String) : GoError
  /-- Models `"sts/google: failed to unmarshal response body from Secure Token Server: %v"`. -/
  | stsDecode (cause : String) : GoError
  /-- Models `"iamCredentials/google: failed to unmarshal response body from IAM Credentials Server: %v"`. -/
  | iamDecode (cause : String) : GoError
  /-- Models `"sts/google: got invalid expiry from security token service"`. -/
  | stsInvalidExpiry : GoError
  /-- Models `"iamCredentials/google: unable to parse expiry time from response: %s"`. -/
  | iamTimeParse (cause : String) : GoError
  /-- Models `"iamCredentials/google: got invalid expiry from IAM token service"`. -/
  | iamInvalidExpiry : GoError
  /-- Models `"error fetching ID Token from plugin system view: %v"`. -/
  | fetchError (cause : String) : GoError
  deriving DecidableEq, Repr

-- Decidable equality of `Except` results, used to evaluate concrete runs.
deriving instance DecidableEq for Except

/-- Oracles for the Go standard-library effects the repository calls. -/
structure NetEnv where
  /-- Models `time.Now()`, in seconds; the Go zero time is `0`. -/
  now : Int
  /-- Models `client.Do` of `cleanhttp.DefaultClient()`: transport failure or a response. -/
  doRequest : HttpRequest → Except String HttpResponse
  /-- Models the syntax layer of `encoding/json.Unmarshal`: `none` on malformed JSON. -/
  parseJson : String → Option Json
  /-- Models `time.Parse(time.RFC3339, s)`: the parsed time (`0` = Go zero time) or an error. -/
  parseRFC3339 : String → Except String Int

/-! ## Go request/response structs (`token_exchange.go` half) -/

/-- Go struct `STSTokenExchangeRequest`: fields necessary to make an STS token exchange. -/
structure STSTokenExchangeRequest where
  GrantType : String
  Audience : String
  Scope : List String
  RequestedTokenType : String
  SubjectToken : String
  SubjectTokenType : String
  deriving DecidableEq, Repr

/-- Go struct `STSTokenResponse`: decodes the STS server response (snake_case JSON keys). -/
structure STSTokenResponse where
  AccessToken : String
  IssuedTokenType : String
  TokenType : String
  ExpiresIn : Int
  Scope : String
  RefreshToken : String
  deriving DecidableEq, Repr

/-- Go struct `IAMTokenExchangeRequest`: fields necessary to make an IAM token exchange. -/
structure IAMTokenExchangeRequest where
  Scope : List String
  Lifetime : String
  STSAccessToken : String
  deriving DecidableEq, Repr

/-- Go struct `IAMTokenResponse`: decodes the IAM server response (camelCase JSON keys). -/
structure IAMTokenResponse where
  AccessToken : String
  ExpireTime : String
  deriving DecidableEq, Repr

/-- Go struct `oauth2.Token`, restricted to the fields the repository sets; the
zero value has empty strings and `Expiry = 0` (the Go zero time). -/
structure OAuth2Token where
  AccessToken : String
  TokenType : String
  Expiry : Int
  RefreshToken : String
  deriving DecidableEq, Repr

/-! ## `net/url` form encoding (Go standard library, modelled concretely
because claim C5 is about the exact bytes it produces) -/

/-- The UTF-8 bytes of a character, as `encoding` of a Go string is byte-wise. -/
def utf8Bytes (c : Char) : List Nat :=
  let n := c.toNat
  if n < 0x80 then [n]
  else if n < 0x800 then [0xC0 + n / 0x40, 0x80 + n % 0x40]
  else if n < 0x10000 then
    [0xE0 + n / 0x1000, 0x80 + (n / 0x40) % 0x40, 0x80 + n % 0x40]
  else
    [0xF0 + n / 0x40000, 0x80 + (n / 0x1000) % 0x40,
     0x80 + (n / 0x40) % 0x40, 0x80 + n % 0x40]

/-- Upper-case hexadecimal digit, as `url.QueryEscape` emits. -/
def hexDigitUpper (n : Nat) : Char :=
  if n < 10 then Char.ofNat (48 + n) else Char.ofNat (55 + n)

/-- Go `url.QueryEscape` leaves alphanumerics and `-_.~` unescaped. -/
def isUnreservedByte (b : Nat) : Bool :=
  (65 ≤ b && b ≤ 90) || (97 ≤ b && b ≤ 122) || (48 ≤ b && b ≤ 57) ||
  b = 45 || b = 95 || b = 46 || b = 126

/-- How `url.QueryEscape` renders one byte: space becomes `+`,
unreserved bytes pass through, everything else becomes `%XX`. -/
def queryEscapeByte (b : Nat) : String :=
  if b = 32 then "+"
  else if isUnreservedByte b then String.singleton (Char.ofNat b)
  else "%" ++ String.singleton (hexDigitUpper (b / 16)) ++ String.singleton (hexDigitUpper (b % 16))

/-- Go `url.QueryEscape`: byte-wise escaping of the UTF-8 encoding. -/
def queryEscape (s : String) : String :=
  String.join (((s.data.map utf8Bytes).flatten).map queryEscapeByte)

/-- Models `url.Values.Set`: replace the value stored under `k`, or append the
pair if the key is absent (each key holds one value in this code). -/
def valuesSet (vs : List (String × String)) (k v : String) : List (String × String) :=
  if vs.any (fun kv => kv.1 = k) then
    vs.map (fun kv => if kv.1 = k then (k, v) else kv)
  else vs ++ [(k, v)]

/-- Byte-wise lexicographic order on char lists; on the ASCII keys used
here this is exactly the Go string order used by `sort.Strings`. -/
def charListLt : List Char → List Char → Bool
  | [], [] => false
  | [], _ :: _ => true
  | _ :: _, [] => false
  | a :: as, b :: bs =>
    if a.toNat < b.toNat then true
    else if b.toNat < a.toNat then false
    else charListLt as bs

/-- Go string order (byte-wise lexicographic). -/
def strLt (a b : String) : Bool := charListLt a.data b.data

/-- Insertion step of sorting the form keys, as `url.Values.Encode`
sorts keys before emitting. -/
def insertByKey (kv : String × String) : List (String × String) → List (String × String)
  | [] => [kv]
  | x :: xs => if strLt x.1 kv.1 then x :: insertByKey kv xs else kv :: x :: xs

/-- Sort an association list by key (insertion sort; the keys here are distinct). -/
def sortByKey : List (String × String) → List (String × String)
  | [] => []
  | x :: xs => insertByKey x (sortByKey xs)

/-- Models `url.Values.Encode`: keys sorted, each pair rendered with
both key and value query-escaped, joined with `&`. -/
def urlValuesEncode (vs : List (String × String)) : String :=
  String.intercalate "&" ((sortByKey vs).map (fun kv => queryEscape kv.1 ++ "=" ++ queryEscape kv.2))

/-! ## `encoding/json` struct decoding and marshalling for the two
response/request shapes (concrete, since claims C6 and C8 are about the
field mapping) -/

/-- Zero value of `STSTokenResponse`, the starting point of `json.Unmarshal`. -/
def STSTokenResponse.zero : STSTokenResponse :=
  { AccessToken := "", IssuedTokenType := "", TokenType := "", ExpiresIn := 0,
    Scope := "", RefreshToken := "" }

/-- One step of unmarshalling into `STSTokenResponse`: keys are matched
against the snake_case json tags, a JSON null leaves the field alone, a
type mismatch is an error, an unknown key is ignored. -/
def stsApplyField (acc : STSTokenResponse) (k : String) (v : Json) :
    Except String STSTokenResponse :=
  if k = "access_token" then
    match v with
    | Json.str s => Except.ok { acc with AccessToken := s }
    | Json.null => Except.ok acc
    | _ => Except.error "json: cannot unmarshal into Go struct field STSTokenResponse.access_token of type string"
  else if k = "issued_token_type" then
    match v with
    | Json.str s => Except.ok { acc with IssuedTokenType := s }
    | Json.null => Except.ok acc
    | _ => Except.error "json: cannot unmarshal into Go struct field STSTokenResponse.issued_token_type of type string"
  else if k = "token_type" then
    match v with
    | Json.str s => Except.ok { acc with TokenType := s }
    | Json.null => Except.ok acc
    | _ => Except.error "json: cannot unmarshal into Go struct field STSTokenResponse.token_type of type string"
  else if k = "expires_in" then
    match v with
    | Json.num n => Except.ok { acc with ExpiresIn := n }
    | Json.null => Except.ok acc
    | _ => Except.error "json: cannot unmarshal into Go struct field STSTokenResponse.expires_in of type int"
  else if k = "scope" then
    match v with
    | Json.str s => Except.ok { acc with Scope := s }
    | Json.null => Except.ok acc
    | _ => Except.error "json: cannot unmarshal into Go struct field STSTokenResponse.scope of type string"
  else if k = "refresh_token" then
    match v with
    | Json.str s => Except.ok { acc with RefreshToken := s }
    | Json.null => Except.ok acc
    | _ => Except.error "json: cannot unmarshal into Go struct field STSTokenResponse.refresh_token of type string"
  else Except.ok acc

/-- Unmarshal a JSON value into `STSTokenResponse`: a missing key keeps
the zero value (so an absent `refresh_token` stays `""`), keys are
processed in order with the last occurrence winning, a non-object is an
error. -/
def decodeSTSResponse (j : Json) : Except String STSTokenResponse :=
  match j with
  | Json.obj fields =>
      fields.foldlM (fun acc kv => stsApplyField acc kv.1 kv.2) STSTokenResponse.zero
  | _ => Except.error "json: cannot unmarshal into Go value of type gcputil.STSTokenResponse"

/-- Zero value of `IAMTokenResponse`. -/
def IAMTokenResponse.zero : IAMTokenResponse := { AccessToken := "", ExpireTime := "" }

/-- One step of unmarshalling into `IAMTokenResponse` (camelCase json tags). -/
def iamApplyField (acc : IAMTokenResponse) (k : String) (v : Json) :
    Except String IAMTokenResponse :=
  if k = "accessToken" then
    match v with
    | Json.str s => Except.ok { acc with AccessToken := s }
    | Json.null => Except.ok acc
    | _ => Except.error "json: cannot unmarshal into Go struct field IAMTokenResponse.accessToken of type string"
  else if k = "expireTime" then
    match v with
    | Json.str s => Except.ok { acc with ExpireTime := s }
    | Json.null => Except.ok acc
    | _ => Except.error "json: cannot unmarshal into Go struct field IAMTokenResponse.expireTime of type string"
  else Except.ok acc

/-- Unmarshal a JSON value into `IAMTokenResponse`. -/
def decodeIAMResponse (j : Json) : Except String IAMTokenResponse :=
  match j with
  | Json.obj fields =>
      fields.foldlM (fun acc kv => iamApplyField acc kv.1 kv.2) IAMTokenResponse.zero
  | _ => Except.error "json: cannot unmarshal into Go value of type gcputil.IAMTokenResponse"

/-- Lower-case hexadecimal digit, as `encoding/json` emits in escapes. -/
def hexDigitLower (n : Nat) : Char :=
  if n < 10 then Char.ofNat (48 + n) else Char.ofNat (87 + n)

/-- How `json.Marshal` escapes one character of a string: quote,
backslash, the HTML-escaped set, control characters, and the two
line-separator code points. -/
def jsonEscapeChar (c : Char) : String :=
  if c = Char.ofNat 34 then "\\\""
  else if c = Char.ofNat 92 then "\\\\"
  else if c = Char.ofNat 10 then "\\n"
  else if c = Char.ofNat 13 then "\\r"
  else if c = Char.ofNat 9 then "\\t"
  else if c = Char.ofNat 60 then "\\u003c"
  else if c = Char.ofNat 62 then "\\u003e"
  else if c = Char.ofNat 38 then "\\u0026"
  else if c.toNat < 0x20 then
    "\\u00" ++ String.singleton (hexDigitLower (c.toNat / 16))
            ++ String.singleton (hexDigitLower (c.toNat % 16))
  else if c.toNat = 0x2028 then "\\u2028"
  else if c.toNat = 0x2029 then "\\u2029"
  else String.singleton c

/-- Go `json.Marshal` of a string value. -/
def jsonEncodeString (s : String) : String :=
  "\"" ++ String.join (s.data.map jsonEscapeChar) ++ "\""

/-- Go `json.Marshal` of a `[]string` value. -/
def jsonEncodeStringList (xs : List String) : String :=
  "[" ++ String.intercalate "," (xs.map jsonEncodeString) ++ "]"

/-- Go `json.Marshal` of a `map[string]interface{}` whose values have
already been rendered: keys are emitted in sorted order. -/
def jsonEncodeObjRendered (vs : List (String × String)) : String :=
  "\x7b" ++ String.intercalate ","
    ((sortByKey vs).map (fun kv => jsonEncodeString kv.1 ++ ":" ++ kv.2)) ++ "\x7d"

/-! ## The exchange client (`ExchangeSTSToken` / `ExchangeServiceAccountToken`) -/

/-- Body built by `makeSTSRequest`: six `data.Set` calls then `data.Encode()`. -/
def makeSTSBody (r : STSTokenExchangeRequest) : String :=
  let data := valuesSet [] "audience" r.Audience
  let data := valuesSet data "grant_type" "urn:ietf:params:oauth:grant-type:token-exchange"
  let data := valuesSet data "requested_token_type" "urn:ietf:params:oauth:token-type:access_token"
  let data := valuesSet data "subject_token_type" r.SubjectTokenType
  let data := valuesSet data "subject_token" r.SubjectToken
  let data := valuesSet data "scope" (String.intercalate " " r.Scope)
  urlValuesEncode data

/-- The HTTP request `makeSTSRequest` issues. -/
def stsHttpRequest (endpoint : String) (r : STSTokenExchangeRequest) : HttpRequest :=
  { method := "POST", url := endpoint,
    headers := [("Content-Type", "application/x-www-form-urlencoded")],
    body := makeSTSBody r }

/-- Response handling of `makeSTSRequest`: fail on transport error or
non-2xx status, unmarshal the body. -/
def stsResponseResult (env : NetEnv) (req : HttpRequest) : Except GoError STSTokenResponse :=
  match env.doRequest req with
  | Except.error e => Except.error (GoError.stsTransport e)
  | Except.ok resp =>
    if resp.statusCode < 200 ∨ 299 < resp.statusCode then
      Except.error (GoError.stsExchange resp.statusCode resp.body)
    else
      match env.parseJson resp.body with
      | none => Except.error (GoError.stsDecode "invalid JSON")
      | some j =>
        match decodeSTSResponse j with
        | Except.error m => Except.error (GoError.stsDecode m)
        | Except.ok stsResp => Except.ok stsResp

/-- Go `makeSTSRequest`: build the form request, POST it, handle the
response. The issued-request list is the singleton in every branch. -/
def makeSTSRequest (env : NetEnv) (endpoint : String) (r : STSTokenExchangeRequest) :
    List HttpRequest × Except GoError STSTokenResponse :=
  let req := stsHttpRequest endpoint r
  ([req], stsResponseResult env req)

/-- Body built by `makeIAMRequest`: a `map[string]interface{}` holding
`scope` and, when non-empty, `lifetime`, then `json.Marshal`. -/
def makeIAMBody (r : IAMTokenExchangeRequest) : String :=
  let data := [("scope", jsonEncodeStringList r.Scope)]
  let data := if r.Lifetime ≠ "" then data ++ [("lifetime", jsonEncodeString r.Lifetime)] else data
  jsonEncodeObjRendered data

/-- The HTTP request `makeIAMRequest` issues. -/
def iamHttpRequest (endpoint : String) (r : IAMTokenExchangeRequest) : HttpRequest :=
  { method := "POST", url := endpoint,
    headers := [("Content-Type", "application/json"),
                ("Authorization", "Bearer " ++ r.STSAccessToken)],
    body := makeIAMBody r }

/-- Response handling of `makeIAMRequest`: fail on transport error or
non-2xx status, unmarshal the body. -/
def iamResponseResult (env : NetEnv) (req : HttpRequest) : Except GoError IAMTokenResponse :=
  match env.doRequest req with
  | Except.error e => Except.error (GoError.iamTransport e)
  | Except.ok resp =>
    if resp.statusCode < 200 ∨ 299 < resp.statusCode then
      Except.error (GoError.iamExchange resp.statusCode resp.body)
    else
      match env.parseJson resp.body with
      | none => Except.error (GoError.iamDecode "invalid JSON")
      | some j =>
        match decodeIAMResponse j with
        | Except.error m => Except.error (GoError.iamDecode m)
        | Except.ok iamResp => Except.ok iamResp

/-- Go `makeIAMRequest`: build the JSON request with bearer auth, POST
it, handle the response. The issued-request list is the singleton in
every branch. -/
def makeIAMRequest (env : NetEnv) (endpoint : String) (r : IAMTokenExchangeRequest) :
    List HttpRequest × Except GoError IAMTokenResponse :=
  let req := iamHttpRequest endpoint r
  ([req], iamResponseResult env req)

/-- Go `ExchangeSTSToken`: a nil request (`none`) fails with
`errTokenRequestNil` before any network activity. -/
def ExchangeSTSToken (env : NetEnv) (endpoint : String)
    (request : Option STSTokenExchangeRequest) :
    List HttpRequest × Except GoError STSTokenResponse :=
  match request with
  | none => ([], Except.error GoError.nilRequest)
  | some r => makeSTSRequest env endpoint r

/-- Go `ExchangeServiceAccountToken`: a nil request (`none`) fails with
`errTokenRequestNil` before any network activity. -/
def ExchangeServiceAccountToken (env : NetEnv) (endpoint : String)
    (request : Option IAMTokenExchangeRequest) :
    List HttpRequest × Except GoError IAMTokenResponse :=
  match request with
  | none => ([], Except.error GoError.nilRequest)
  | some r => makeIAMRequest env endpoint r

/-! ## The federated token source (`credentials.go` half) -/

/-- Constant `defaultTokenAuthScopes`. -/
def defaultTokenAuthScopes : List String := ["https://www.googleapis.com/auth/cloud-platform"]

/-- Constant `defaultJWTSubjectTokenType`. -/
def defaultJWTSubjectTokenType : String := "urn:ietf:params:oauth:token-type:jwt"

/-- Constant `stsTokenAPIEndpoint`. -/
def stsTokenAPIEndpoint : String := "https://sts.googleapis.com/v1/token"

/-- Constant `iamCredentialsAPIsEndpoint`. -/
def iamCredentialsAPIsEndpoint : String := "https://iamcredentials.googleapis.com"

/-- Go struct `ExternalAccountConfig`. Its `TokenFetcher` field is a
function receiving the config itself, which a Lean structure cannot
hold (positivity); the fetcher is therefore passed alongside the
config wherever the Go code reads `ts.config.TokenFetcher`, and it
receives the full config exactly as `TokenFetcher(ctx, ts.config)`
does. `TTL` is a `time.Duration`, modelled as `Int`. -/
structure ExternalAccountConfig where
  Audience : String
  TTL : Int
  ServiceAccountEmail : String
  deriving DecidableEq, Repr

/-- Go type `WebIdentityTokenFetcher` (the context argument is implicit
in the oracle style of this embedding). -/
abbrev WebIdentityTokenFetcher := ExternalAccountConfig → Except String String

/-- The `STSTokenExchangeRequest` literal built inside `obtainSTSToken`. -/
def buildSTSExchangeRequest (cfg : ExternalAccountConfig) (pluginToken : String) :
    STSTokenExchangeRequest :=
  { GrantType := "urn:ietf:params:oauth:grant-type:token-exchange",
    Audience := cfg.Audience,
    Scope := defaultTokenAuthScopes,
    RequestedTokenType := "urn:ietf:params:oauth:token-type:access_token",
    SubjectTokenType := defaultJWTSubjectTokenType,
    SubjectToken := pluginToken }

/-- Go method `tokenSource.obtainSTSToken`: exchange the plugin token
at the fixed STS endpoint, reject a negative `ExpiresIn`, otherwise
stamp `Expiry = now + ExpiresIn` seconds and carry over a non-empty
refresh token. -/
def obtainSTSToken (env : NetEnv) (cfg : ExternalAccountConfig) (pluginToken : String) :
    List HttpRequest × Except GoError OAuth2Token :=
  let r := ExchangeSTSToken env stsTokenAPIEndpoint (some (buildSTSExchangeRequest cfg pluginToken))
  match r.2 with
  | Except.error e => (r.1, Except.error e)
  | Except.ok stsResp =>
    let accessToken : OAuth2Token :=
      { AccessToken := stsResp.AccessToken, TokenType := stsResp.TokenType,
        Expiry := 0, RefreshToken := "" }
    if stsResp.ExpiresIn < 0 then
      (r.1, Except.error GoError.stsInvalidExpiry)
    else
      let accessToken :=
        if 0 ≤ stsResp.ExpiresIn then { accessToken with Expiry := env.now + stsResp.ExpiresIn }
        else accessToken
      let accessToken :=
        if stsResp.RefreshToken ≠ "" then { accessToken with RefreshToken := stsResp.RefreshToken }
        else accessToken
      (r.1, Except.ok accessToken)

/-- The IAM `generateAccessToken` endpoint string built in `obtainSACredential`. -/
def iamGenerateAccessTokenEndpoint (cfg : ExternalAccountConfig) : String :=
  iamCredentialsAPIsEndpoint ++ "/v1/projects/-/serviceAccounts/"
    ++ cfg.ServiceAccountEmail ++ ":generateAccessToken"

/-- The `IAMTokenExchangeRequest` literal built inside `obtainSACredential`
(note `Lifetime` is left at its zero value). -/
def buildIAMExchangeRequest (stsToken : OAuth2Token) : IAMTokenExchangeRequest :=
  { Scope := ["https://www.googleapis.com/auth/cloud-platform"],
    Lifetime := "",
    STSAccessToken := stsToken.AccessToken }

/-- Go method `tokenSource.obtainSACredential`: exchange the STS access
token at the IAM credentials endpoint, parse `ExpireTime` as RFC3339
(failure is a time-parse error), reject the zero time, otherwise the
parsed time is the token expiry. -/
def obtainSACredential (env : NetEnv) (cfg : ExternalAccountConfig) (stsToken : OAuth2Token) :
    List HttpRequest × Except GoError OAuth2Token :=
  let r := ExchangeServiceAccountToken env (iamGenerateAccessTokenEndpoint cfg)
            (some (buildIAMExchangeRequest stsToken))
  match r.2 with
  | Except.error e => (r.1, Except.error e)
  | Except.ok resp =>
    let accessToken : OAuth2Token :=
      { AccessToken := resp.AccessToken, TokenType := "", Expiry := 0, RefreshToken := "" }
    match env.parseRFC3339 resp.ExpireTime with
    | Except.error e => (r.1, Except.error (GoError.iamTimeParse e))
    | Except.ok t =>
      if t = 0 then (r.1, Except.error GoError.iamInvalidExpiry)
      else (r.1, Except.ok { accessToken with Expiry := t })

/-- Go method `tokenSource.Token`: fetch the identity token, exchange
it for an STS token, exchange that for the service-account credential. -/
def tokenSourceToken (env : NetEnv) (cfg : ExternalAccountConfig)
    (fetcher : WebIdentityTokenFetcher) :
    List HttpRequest × Except GoError OAuth2Token :=
  match fetcher cfg with
  | Except.error e => ([], Except.error (GoError.fetchError e))
  | Except.ok pluginToken =>
    let r1 := obtainSTSToken env cfg pluginToken
    match r1.2 with
    | Except.error e => (r1.1, Except.error e)
    | Except.ok stsToken =>
      let r2 := obtainSACredential env cfg stsToken
      (r1.1 ++ r2.1, r2.2)

/-! ## Claim theorems -/

/-- C4: for every environment and endpoint, both exchange functions
called with a nil request fail with the `errTokenRequestNil` sentinel
and issue no HTTP request at all. -/
theorem nil_request_fails_without_network (env : NetEnv) (endpoint : String) :
    ExchangeSTSToken env endpoint none = ([], Except.error GoError.nilRequest) ∧
    ExchangeServiceAccountToken env endpoint none = ([], Except.error GoError.nilRequest) :=
  ⟨rfl, rfl⟩

/-- C5: for every non-nil request, `ExchangeSTSToken` issues exactly one
POST whose only header is `Content-Type: application/x-www-form-urlencoded`
and whose body is the form encoding of exactly the keys `audience`,
`grant_type` (the fixed token-exchange URI), `requested_token_type` (the
fixed access-token URI), `scope` (the scope list joined with spaces),
`subject_token` and `subject_token_type`, every value URL-escaped. -/
theorem sts_exchange_wire_format (env : NetEnv) (endpoint : String)
    (r : STSTokenExchangeRequest) :
    (ExchangeSTSToken env endpoint (some r)).1 =
      [{ method := "POST", url := endpoint,
         headers := [("Content-Type", "application/x-www-form-urlencoded")],
         body := String.intercalate "&"
           ["audience=" ++ queryEscape r.Audience,
            "grant_type=" ++ queryEscape "urn:ietf:params:oauth:grant-type:token-exchange",
            "requested_token_type=" ++ queryEscape "urn:ietf:params:oauth:token-type:access_token",
            "scope=" ++ queryEscape (String.intercalate " " r.Scope),
            "subject_token=" ++ queryEscape r.SubjectToken,
            "subject_token_type=" ++ queryEscape r.SubjectTokenType] }] := rfl

/-- C6: for every non-nil request, `ExchangeServiceAccountToken` issues
exactly one POST with headers `Content-Type: application/json` and
`Authorization: Bearer <stsAccessToken>`, whose JSON body holds the key
`scope` with the request scope list and holds the key `lifetime` exactly
when the request lifetime is non-empty. -/
theorem iam_exchange_wire_format (env : NetEnv) (endpoint : String)
    (r : IAMTokenExchangeRequest) :
    (ExchangeServiceAccountToken env endpoint (some r)).1 =
      [{ method := "POST", url := endpoint,
         headers := [("Content-Type", "application/json"),
                     ("Authorization", "Bearer " ++ r.STSAccessToken)],
         body := if r.Lifetime = "" then
             "\x7b" ++ String.intercalate "," ["\"scope\":" ++ jsonEncodeStringList r.Scope] ++ "\x7d"
           else
             "\x7b" ++ String.intercalate ","
               ["\"lifetime\":" ++ jsonEncodeString r.Lifetime,
                "\"scope\":" ++ jsonEncodeStringList r.Scope] ++ "\x7d" }] := by
  show (makeIAMRequest env endpoint r).1 = _
  by_cases h : r.Lifetime = ""
  · rw [if_pos h]
    show [iamHttpRequest endpoint r] = _
    simp only [iamHttpRequest, makeIAMBody]
    rw [if_neg (fun hc => hc h)]
    rfl
  · rw [if_neg h]
    show [iamHttpRequest endpoint r] = _
    simp only [iamHttpRequest, makeIAMBody]
    rw [if_pos h]
    rfl

/-- C9: the `GrantType` and `RequestedTokenType` fields of an
`STSTokenExchangeRequest` are never read: two non-nil requests that
differ only in those fields produce identical exchanges (in particular
byte-identical request bodies), the values sent being hardcoded. -/
theorem sts_grant_fields_not_read (env : NetEnv) (endpoint : String)
    (r : STSTokenExchangeRequest) (g g2 t t2 : String) :
    ExchangeSTSToken env endpoint (some { r with GrantType := g, RequestedTokenType := t }) =
      ExchangeSTSToken env endpoint (some { r with GrantType := g2, RequestedTokenType := t2 }) := rfl

/-- C7: whenever either endpoint answers with a status outside 200–299,
the corresponding exchange fails hard with the status-code error
carrying the exact status and raw body, and no parsed response is
returned. -/
theorem non_2xx_is_exchange_error (env : NetEnv) (endpoint : String)
    (rs : STSTokenExchangeRequest) (ri : IAMTokenExchangeRequest)
    (resps respi : HttpResponse)
    (hs : env.doRequest (stsHttpRequest endpoint rs) = Except.ok resps)
    (hcs : resps.statusCode < 200 ∨ 299 < resps.statusCode)
    (hi : env.doRequest (iamHttpRequest endpoint ri) = Except.ok respi)
    (hci : respi.statusCode < 200 ∨ 299 < respi.statusCode) :
    ExchangeSTSToken env endpoint (some rs) =
      ([stsHttpRequest endpoint rs],
        Except.error (GoError.stsExchange resps.statusCode resps.body)) ∧
    ExchangeServiceAccountToken env endpoint (some ri) =
      ([iamHttpRequest endpoint ri],
        Except.error (GoError.iamExchange respi.statusCode respi.body)) := by
  constructor
  · show makeSTSRequest env endpoint rs = _
    simp only [makeSTSRequest, stsResponseResult, hs]
    rw [if_pos hcs]
  · show makeIAMRequest env endpoint ri = _
    simp only [makeIAMRequest, iamResponseResult, hi]
    rw [if_pos hci]

/-- The request literal of the STS exchange test shipped with the repository. -/
def sampleSTSRequest : STSTokenExchangeRequest :=
  { GrantType := "urn:ietf:params:oauth:grant-type:token-exchange",
    Audience := "test-audience",
    Scope := ["https://www.googleapis.com/auth/cloud-platform"],
    RequestedTokenType := "urn:ietf:params:oauth:token-type:access_token",
    SubjectToken := "test-workloadIdentity-token",
    SubjectTokenType := "urn:ietf:params:oauth:token-type:jwt" }

/-- The request literal of the IAM exchange test shipped with the repository. -/
def sampleIAMRequest : IAMTokenExchangeRequest :=
  { Scope := ["https://www.googleapis.com/auth/cloud-platform"],
    Lifetime := "", STSAccessToken := "test-token" }

/-- An environment whose transport always answers 404. -/
def env404 : NetEnv :=
  { now := 0,
    doRequest := fun _ => Except.ok { statusCode := 404, body := "not found" },
    parseJson := fun _ => none,
    parseRFC3339 := fun _ => Except.error "bad" }

/-- Witness for the non-2xx theorem at status 404 with body `"not found"`. -/
theorem non_2xx_is_exchange_error_witness :
    (env404.doRequest (stsHttpRequest "ep" sampleSTSRequest) =
        Except.ok { statusCode := 404, body := "not found" }) ∧
    ((404 : Int) < 200 ∨ (299 : Int) < 404) ∧
    (env404.doRequest (iamHttpRequest "ep" sampleIAMRequest) =
        Except.ok { statusCode := 404, body := "not found" }) ∧
    (ExchangeSTSToken env404 "ep" (some sampleSTSRequest) =
        ([stsHttpRequest "ep" sampleSTSRequest],
          Except.error (GoError.stsExchange 404 "not found")) ∧
      ExchangeServiceAccountToken env404 "ep" (some sampleIAMRequest) =
        ([iamHttpRequest "ep" sampleIAMRequest],
          Except.error (GoError.iamExchange 404 "not found"))) :=
  ⟨rfl, Or.inr (by decide), rfl,
    non_2xx_is_exchange_error env404 "ep" sampleSTSRequest sampleIAMRequest
      { statusCode := 404, body := "not found" } { statusCode := 404, body := "not found" }
      rfl (Or.inr (by decide)) rfl (Or.inr (by decide))⟩

/-- C8: every 2xx STS response whose body parses as JSON and decodes
into the struct is returned as-is — snake_case keys mapped field for
field, `RefreshToken` left `""` when the key is absent (second
conjunct, the literal example given by the spec) — with no validation of
`ExpiresIn` at this layer. -/
theorem sts_2xx_decoded_without_validation (env : NetEnv) (endpoint : String)
    (r : STSTokenExchangeRequest) (resp : HttpResponse) (j : Json) (sts : STSTokenResponse)
    (h1 : env.doRequest (stsHttpRequest endpoint r) = Except.ok resp)
    (h2 : 200 ≤ resp.statusCode) (h3 : resp.statusCode ≤ 299)
    (h4 : env.parseJson resp.body = some j)
    (h5 : decodeSTSResponse j = Except.ok sts) :
    ExchangeSTSToken env endpoint (some r) = ([stsHttpRequest endpoint r], Except.ok sts) ∧
    decodeSTSResponse (Json.obj
      [("access_token", Json.str "Sample.Access.Token"),
       ("issued_token_type", Json.str "urn:ietf:params:oauth:token-type:access_token"),
       ("token_type", Json.str "Bearer"),
       ("expires_in", Json.num 3600),
       ("scope", Json.str "https://www.googleapis.com/auth/cloud-platform")]) =
      Except.ok { AccessToken := "Sample.Access.Token",
                  IssuedTokenType := "urn:ietf:params:oauth:token-type:access_token",
                  TokenType := "Bearer", ExpiresIn := 3600,
                  Scope := "https://www.googleapis.com/auth/cloud-platform",
                  RefreshToken := "" } := by
  constructor
  · show makeSTSRequest env endpoint r = _
    simp only [makeSTSRequest, stsResponseResult, h1, h4, h5]
    rw [if_neg (by omega)]
  · rfl

/-- An environment whose STS endpoint answers 200 with a negative
`expires_in`, to exercise the absence of expiry validation. -/
def envSTSNegative : NetEnv :=
  { now := 1000,
    doRequest := fun _ => Except.ok { statusCode := 200, body := "sts-neg-body" },
    parseJson := fun s =>
      if s = "sts-neg-body" then
        some (Json.obj [("access_token", Json.str "at"),
                        ("token_type", Json.str "Bearer"),
                        ("expires_in", Json.num (-7))])
      else none,
    parseRFC3339 := fun _ => Except.error "bad" }

/-- Witness for the 2xx-decoding theorem: a 200 response with
`expires_in = -7` is decoded and returned without error. -/
theorem sts_2xx_decoded_without_validation_witness :
    (envSTSNegative.doRequest (stsHttpRequest "ep" sampleSTSRequest) =
        Except.ok { statusCode := 200, body := "sts-neg-body" }) ∧
    ((200 : Int) ≤ 200) ∧ ((200 : Int) ≤ 299) ∧
    (envSTSNegative.parseJson "sts-neg-body" =
        some (Json.obj [("access_token", Json.str "at"),
                        ("token_type", Json.str "Bearer"),
                        ("expires_in", Json.num (-7))])) ∧
    (decodeSTSResponse (Json.obj [("access_token", Json.str "at"),
                        ("token_type", Json.str "Bearer"),
                        ("expires_in", Json.num (-7))]) =
        Except.ok { AccessToken := "at", IssuedTokenType := "", TokenType := "Bearer",
                    ExpiresIn := -7, Scope := "", RefreshToken := "" }) ∧
    ExchangeSTSToken envSTSNegative "ep" (some sampleSTSRequest) =
      ([stsHttpRequest "ep" sampleSTSRequest],
        Except.ok { AccessToken := "at", IssuedTokenType := "", TokenType := "Bearer",
                    ExpiresIn := -7, Scope := "", RefreshToken := "" }) :=
  ⟨rfl, by decide, by decide, rfl, rfl,
    (sts_2xx_decoded_without_validation envSTSNegative "ep" sampleSTSRequest
      { statusCode := 200, body := "sts-neg-body" } _ _
      rfl (by decide) (by decide) rfl rfl).1⟩

/-- C2: in the `Token()` chain, once the STS exchange has produced a
response, a negative `ExpiresIn` aborts the whole chain with the
invalid-expiry error and every request issued so far went to the STS
endpoint (the IAM exchange is never reached); any `ExpiresIn ≥ 0`
(zero included) raises no error and the expiry of the intermediate token is
`now + ExpiresIn` seconds. -/
theorem sts_expiresIn_validation (env : NetEnv) (cfg : ExternalAccountConfig)
    (f : WebIdentityTokenFetcher) (pluginToken : String)
    (tr : List HttpRequest) (stsResp : STSTokenResponse)
    (hf : f cfg = Except.ok pluginToken)
    (hx : ExchangeSTSToken env stsTokenAPIEndpoint
            (some (buildSTSExchangeRequest cfg pluginToken)) = (tr, Except.ok stsResp)) :
    if stsResp.ExpiresIn < 0 then
      tokenSourceToken env cfg f = (tr, Except.error GoError.stsInvalidExpiry) ∧
      ∀ q ∈ tr, q.url = stsTokenAPIEndpoint
    else
      obtainSTSToken env cfg pluginToken =
        (tr, Except.ok { AccessToken := stsResp.AccessToken, TokenType := stsResp.TokenType,
                         Expiry := env.now + stsResp.ExpiresIn,
                         RefreshToken := stsResp.RefreshToken }) := by
  have htr : tr = [stsHttpRequest stsTokenAPIEndpoint (buildSTSExchangeRequest cfg pluginToken)] := by
    have h := congrArg Prod.fst hx.symm
    simpa [ExchangeSTSToken, makeSTSRequest] using h
  by_cases hneg : stsResp.ExpiresIn < 0
  · rw [if_pos hneg]
    refine ⟨?_, ?_⟩
    · simp only [tokenSourceToken, obtainSTSToken, hf, hx]
      rw [if_pos hneg]
    · intro q hq
      rw [htr] at hq
      simp only [List.mem_singleton] at hq
      subst hq
      rfl
  · rw [if_neg hneg]
    have h0 : (0 : Int) ≤ stsResp.ExpiresIn := by omega
    by_cases hrt : stsResp.RefreshToken = ""
    · simp [obtainSTSToken, hx, hneg, h0, hrt]
    · simp [obtainSTSToken, hx, hneg, h0, hrt]

/-- An environment realising the stub scenario of the spec: the identity
fetcher yields `"test-id-token"` and the STS endpoint answers 200 with
`expires_in = -1`. -/
def envSTSMinusOne : NetEnv :=
  { now := 1000,
    doRequest := fun _ => Except.ok { statusCode := 200, body := "sts-minus-one" },
    parseJson := fun s =>
      if s = "sts-minus-one" then
        some (Json.obj [("access_token", Json.str "at"),
                        ("token_type", Json.str "Bearer"),
                        ("expires_in", Json.num (-1))])
      else none,
    parseRFC3339 := fun _ => Except.error "bad" }

/-- Configuration used by the concrete chain runs. -/
def sampleConfig : ExternalAccountConfig :=
  { Audience := "test-audience", TTL := 0, ServiceAccountEmail := "sa@example.test" }

/-- Fetcher of the stub scenario of the spec. -/
def fetchTestIdToken : WebIdentityTokenFetcher := fun _ => Except.ok "test-id-token"

/-- Witness for the `ExpiresIn` validation theorem: with the stub
fetcher and an STS answer of `expires_in = -1`, the chain fails with
the invalid-expiry error and only the STS endpoint was contacted. -/
theorem sts_expiresIn_validation_witness :
    (fetchTestIdToken sampleConfig = Except.ok "test-id-token") ∧
    (ExchangeSTSToken envSTSMinusOne stsTokenAPIEndpoint
        (some (buildSTSExchangeRequest sampleConfig "test-id-token")) =
      ((ExchangeSTSToken envSTSMinusOne stsTokenAPIEndpoint
          (some (buildSTSExchangeRequest sampleConfig "test-id-token"))).1,
        Except.ok { AccessToken := "at", IssuedTokenType := "", TokenType := "Bearer",
                    ExpiresIn := -1, Scope := "", RefreshToken := "" })) ∧
    (tokenSourceToken envSTSMinusOne sampleConfig fetchTestIdToken =
      ((ExchangeSTSToken envSTSMinusOne stsTokenAPIEndpoint
          (some (buildSTSExchangeRequest sampleConfig "test-id-token"))).1,
        Except.error GoError.stsInvalidExpiry) ∧
     ∀ q ∈ (ExchangeSTSToken envSTSMinusOne stsTokenAPIEndpoint
          (some (buildSTSExchangeRequest sampleConfig "test-id-token"))).1,
        q.url = stsTokenAPIEndpoint) := by
  refine ⟨rfl, rfl, ?_⟩
  have h := sts_expiresIn_validation envSTSMinusOne sampleConfig fetchTestIdToken
    "test-id-token" _
    { AccessToken := "at", IssuedTokenType := "", TokenType := "Bearer",
      ExpiresIn := -1, Scope := "", RefreshToken := "" } rfl rfl
  rw [if_pos (by decide)] at h
  exact h

/-- C3: in the `Token()` chain, once the IAM exchange has produced a
response, an `ExpireTime` that fails RFC3339 parsing yields the
time-parse error, one that parses to the zero timestamp yields the
invalid-expiry error, and any other parsed time becomes the returned
expiry of the token. -/
theorem iam_expireTime_validation (env : NetEnv) (cfg : ExternalAccountConfig)
    (stsToken : OAuth2Token) (tr : List HttpRequest) (resp : IAMTokenResponse)
    (hx : ExchangeServiceAccountToken env (iamGenerateAccessTokenEndpoint cfg)
            (some (buildIAMExchangeRequest stsToken)) = (tr, Except.ok resp)) :
    match env.parseRFC3339 resp.ExpireTime with
    | Except.error e =>
        obtainSACredential env cfg stsToken = (tr, Except.error (GoError.iamTimeParse e))
    | Except.ok t =>
        if t = 0 then
          obtainSACredential env cfg stsToken = (tr, Except.error GoError.iamInvalidExpiry)
        else
          obtainSACredential env cfg stsToken =
            (tr, Except.ok { AccessToken := resp.AccessToken, TokenType := "",
                             Expiry := t, RefreshToken := "" }) := by
  cases hp : env.parseRFC3339 resp.ExpireTime with
  | error e =>
    simp only [obtainSACredential, hx, hp]
  | ok t =>
    by_cases ht : t = 0
    · simp [obtainSACredential, hx, hp, ht]
    · simp [obtainSACredential, hx, hp, ht]

/-- An STS access token as the IAM step receives it from a successful
STS exchange. -/
def sampleSTSAccessToken : OAuth2Token :=
  { AccessToken := "test-token", TokenType := "Bearer", Expiry := 2000, RefreshToken := "" }

/-- An environment whose IAM endpoint answers 200 with an `expireTime`
parsing to 700. -/
def envIAMFixed : NetEnv :=
  { now := 1000,
    doRequest := fun _ => Except.ok { statusCode := 200, body := "iam-body" },
    parseJson := fun s =>
      if s = "iam-body" then
        some (Json.obj [("accessToken", Json.str "sa-at"),
                        ("expireTime", Json.str "2030-01-01T00:00:00Z")])
      else none,
    parseRFC3339 := fun s =>
      if s = "2030-01-01T00:00:00Z" then Except.ok 700 else Except.error "parse" }

/-- Witness for the `ExpireTime` validation theorem: a parseable
non-zero `expireTime` becomes the returned expiry. -/
theorem iam_expireTime_validation_witness :
    (ExchangeServiceAccountToken envIAMFixed (iamGenerateAccessTokenEndpoint sampleConfig)
        (some (buildIAMExchangeRequest sampleSTSAccessToken)) =
      ((ExchangeServiceAccountToken envIAMFixed (iamGenerateAccessTokenEndpoint sampleConfig)
          (some (buildIAMExchangeRequest sampleSTSAccessToken))).1,
        Except.ok { AccessToken := "sa-at", ExpireTime := "2030-01-01T00:00:00Z" })) ∧
    obtainSACredential envIAMFixed sampleConfig sampleSTSAccessToken =
      ((ExchangeServiceAccountToken envIAMFixed (iamGenerateAccessTokenEndpoint sampleConfig)
          (some (buildIAMExchangeRequest sampleSTSAccessToken))).1,
        Except.ok { AccessToken := "sa-at", TokenType := "", Expiry := 700, RefreshToken := "" }) := by
  refine ⟨rfl, ?_⟩
  exact iam_expireTime_validation envIAMFixed sampleConfig sampleSTSAccessToken _
    { AccessToken := "sa-at", ExpireTime := "2030-01-01T00:00:00Z" } rfl

/-- C1 (amended): a successful `Token()` call returns a token whose
expiry is exactly the nonzero RFC3339-parsed `expireTime` of the IAM
response; it is strictly in the future only when the IAM service
supplies a future `expireTime` — the code itself performs no check
that the expiry lies in the future. -/
theorem token_expiry_from_iam_response (env : NetEnv) (cfg : ExternalAccountConfig)
    (f : WebIdentityTokenFetcher) (tr : List HttpRequest) (tok : OAuth2Token)
    (h : tokenSourceToken env cfg f = (tr, Except.ok tok)) :
    tok.Expiry ≠ 0 ∧
    ((∀ s t, env.parseRFC3339 s = Except.ok t → env.now < t) → env.now < tok.Expiry) := by
  unfold tokenSourceToken at h
  split at h
  · exact absurd h (by simp)
  · rename_i pluginToken hf
    simp only [] at h
    split at h
    · exact absurd h (by simp)
    · rename_i stsTok hsts
      have h2 : (obtainSACredential env cfg stsTok).2 = Except.ok tok := by
        simpa using congrArg Prod.snd h
      unfold obtainSACredential at h2
      simp only [] at h2
      split at h2
      · simp at h2
      · rename_i resp hiam
        split at h2
        · simp at h2
        · rename_i t hp
          split at h2
          · simp at h2
          · rename_i ht
            simp only [Except.ok.injEq] at h2
            subst h2
            exact ⟨ht, fun hmono => hmono resp.ExpireTime t hp⟩

/-- The C1 claim as stated, for one source instance: every successfully
served token has its expiry strictly in the future at return time. -/
def servedExpiryAlwaysFuture (env : NetEnv) (cfg : ExternalAccountConfig)
    (f : WebIdentityTokenFetcher) : Prop :=
  ∀ tok : OAuth2Token,
    (tokenSourceToken env cfg f).2 = Except.ok tok → env.now < tok.Expiry

/-- An environment where the whole chain succeeds but the IAM service
reports an `expireTime` in the past (500, while `now` is 1000). -/
def envPastExpiry : NetEnv :=
  { now := 1000,
    doRequest := fun req =>
      if req.url = stsTokenAPIEndpoint then Except.ok { statusCode := 200, body := "sts-resp" }
      else Except.ok { statusCode := 200, body := "iam-resp" },
    parseJson := fun s =>
      if s = "sts-resp" then
        some (Json.obj [("access_token", Json.str "sts-at"),
                        ("token_type", Json.str "Bearer"),
                        ("expires_in", Json.num 3600)])
      else if s = "iam-resp" then
        some (Json.obj [("accessToken", Json.str "sa-at"),
                        ("expireTime", Json.str "2000-01-01T00:00:00Z")])
      else none,
    parseRFC3339 := fun s =>
      if s = "2000-01-01T00:00:00Z" then Except.ok 500 else Except.error "parse" }

/-- Counterexample to C1 as stated: with a past (but parseable and
nonzero) IAM `expireTime`, `Token()` succeeds and hands out a token
whose expiry is not in the future, with no stale-detection re-run. -/
theorem served_token_can_be_expired :
    ¬ servedExpiryAlwaysFuture envPastExpiry sampleConfig fetchTestIdToken := by
  intro hclaim
  have h := hclaim
    { AccessToken := "sa-at", TokenType := "", Expiry := 500, RefreshToken := "" } rfl
  exact absurd h (by decide)

/-- An environment identical to `envPastExpiry` except that the IAM
`expireTime` parses to the future time 999999. -/
def envFutureExpiry : NetEnv :=
  { now := 1000,
    doRequest := fun req =>
      if req.url = stsTokenAPIEndpoint then Except.ok { statusCode := 200, body := "sts-resp" }
      else Except.ok { statusCode := 200, body := "iam-resp" },
    parseJson := fun s =>
      if s = "sts-resp" then
        some (Json.obj [("access_token", Json.str "sts-at"),
                        ("token_type", Json.str "Bearer"),
                        ("expires_in", Json.num 3600)])
      else if s = "iam-resp" then
        some (Json.obj [("accessToken", Json.str "sa-at"),
                        ("expireTime", Json.str "2030-01-01T00:00:00Z")])
      else none,
    parseRFC3339 := fun s =>
      if s = "2030-01-01T00:00:00Z" then Except.ok 999999 else Except.error "parse" }

/-- Witness for the amended C1 theorem, in an environment whose parser
only ever produces future times. -/
theorem token_expiry_from_iam_response_witness :
    (tokenSourceToken envFutureExpiry sampleConfig fetchTestIdToken =
      ((tokenSourceToken envFutureExpiry sampleConfig fetchTestIdToken).1,
        Except.ok { AccessToken := "sa-at", TokenType := "", Expiry := 999999, RefreshToken := "" })) ∧
    ({ AccessToken := "sa-at", TokenType := "", Expiry := 999999, RefreshToken := "" } : OAuth2Token).Expiry ≠ 0 ∧
    ((∀ s t, envFutureExpiry.parseRFC3339 s = Except.ok t → envFutureExpiry.now < t) →
      envFutureExpiry.now <
        ({ AccessToken := "sa-at", TokenType := "", Expiry := 999999, RefreshToken := "" } : OAuth2Token).Expiry) := by
  have hpair : tokenSourceToken envFutureExpiry sampleConfig fetchTestIdToken =
      ((tokenSourceToken envFutureExpiry sampleConfig fetchTestIdToken).1,
        Except.ok { AccessToken := "sa-at", TokenType := "", Expiry := 999999, RefreshToken := "" }) := rfl
  exact ⟨hpair,
    token_expiry_from_iam_response envFutureExpiry sampleConfig fetchTestIdToken _ _ hpair⟩

/-- C10 (amended): no code of the repository reads `TTL` — `Token()` is
unchanged under a change of `TTL` provided the caller-supplied fetcher
result does not itself depend on the `TTL` handed to it (the config,
`TTL` included, is passed to the fetcher). -/
theorem token_independent_of_ttl (env : NetEnv) (cfg : ExternalAccountConfig)
    (f : WebIdentityTokenFetcher) (t1 t2 : Int)
    (hf : f { cfg with TTL := t1 } = f { cfg with TTL := t2 }) :
    tokenSourceToken env { cfg with TTL := t1 } f =
      tokenSourceToken env { cfg with TTL := t2 } f := by
  unfold tokenSourceToken
  rw [hf]
  cases f { cfg with TTL := t2 } with
  | error e => rfl
  | ok p => rfl

/-- The C10 claim as stated, for one instance: two configurations that
differ only in `TTL` make `Token()` behave identically. -/
def tokenIgnoresTTL (env : NetEnv) (cfg : ExternalAccountConfig)
    (f : WebIdentityTokenFetcher) (t1 t2 : Int) : Prop :=
  tokenSourceToken env { cfg with TTL := t1 } f =
    tokenSourceToken env { cfg with TTL := t2 } f

/-- A fetcher that inspects the `TTL` of the config it is handed, which
`Token()` passes through wholesale. -/
def fetchReadsTTL : WebIdentityTokenFetcher :=
  fun c => if c.TTL = 1 then Except.ok "token-A" else Except.ok "token-B"

/-- A transport that fails echoing the request body, making the outcome
depend on the subject token that was sent. -/
def envEchoBody : NetEnv :=
  { now := 0,
    doRequest := fun req => Except.error req.body,
    parseJson := fun _ => none,
    parseRFC3339 := fun _ => Except.error "bad" }

set_option maxRecDepth 4096 in
/-- Counterexample to C10 as stated: with a fetcher that reads the
`TTL` it is handed, two configs differing only in `TTL` produce
different `Token()` outcomes (different subject tokens reach the STS
exchange). -/
theorem token_can_depend_on_ttl :
    ¬ tokenIgnoresTTL envEchoBody sampleConfig fetchReadsTTL 1 2 := by
  intro hclaim
  have h : tokenSourceToken envEchoBody { sampleConfig with TTL := 1 } fetchReadsTTL =
      tokenSourceToken envEchoBody { sampleConfig with TTL := 2 } fetchReadsTTL := hclaim
  exact absurd h (by decide)

/-- Witness for the amended C10 theorem with `TTL` 5 versus 9 and a
fetcher whose result is `TTL`-independent. -/
theorem token_independent_of_ttl_witness :
    (fetchTestIdToken { sampleConfig with TTL := 5 } =
        fetchTestIdToken { sampleConfig with TTL := 9 }) ∧
    tokenSourceToken envEchoBody { sampleConfig with TTL := 5 } fetchTestIdToken =
      tokenSourceToken envEchoBody { sampleConfig with TTL := 9 } fetchTestIdToken :=
  ⟨rfl, token_independent_of_ttl envEchoBody sampleConfig fetchTestIdToken 5 9 rfl⟩
